import Mathlib

/-!
Shallow embedding of the inventory stock ledger and consumption engine of
`app.py` (cmt_inventory), together with proofs about its operations.

Loosely-typed Python values that flow into the quantity helpers (`_to_int`,
`_clamp_nonneg`) are modelled by the `Value` type below: an integer, a string,
or `None`.  SQLAlchemy integer columns are nullable and may also hold whatever
a form handed over, so the quantity fields of a stock row are `Value`s; every
write the engine performs stores an integer (`Value.vInt`).
-/

namespace CmtInventory

/-- A loosely-typed Python value reaching the quantity helpers: an `int`,
a `str`, or `None`. -/
inductive Value where
  | vInt (n : Int)
  | vStr (s : String)
  | vNone
deriving DecidableEq, Repr

/-- Python `s.strip()`: drop whitespace from both ends. -/
def pyStrip (s : String) : String :=
  ⟨((s.data.dropWhile Char.isWhitespace).reverse.dropWhile
      Char.isWhitespace).reverse⟩

/-- Python `s.upper()` (ASCII case mapping, all this code base uses). -/
def pyUpper (s : String) : String :=
  ⟨s.data.map Char.toUpper⟩

/-- Decimal-digit run parser used by `pyParseInt`. -/
def parseDigits : List Char → Option Nat
  | [] => none
  | cs =>
    if cs.all Char.isDigit then
      some (cs.foldl (fun acc c => acc * 10 + (c.toNat - 48)) 0)
    else
      none

/-- Python `int(s)` on an already-stripped string: an optional sign followed by
a non-empty run of decimal digits; anything else fails.  (Underscore digit
grouping accepted by CPython is not used anywhere in this code base and is
omitted.) -/
def pyParseInt (s : String) : Option Int :=
  match s.data with
  | '+' :: rest => (parseDigits rest).map Int.ofNat
  | '-' :: rest => (parseDigits rest).map (fun n => -(n : Int))
  | l => (parseDigits l).map Int.ofNat

/-- `_to_int(value, default)` from app.py: `None` and unparseable inputs give
`default`; an `int` is returned as-is; a string is stripped, the sentinels `""`
and `"N/A"` (case-insensitive) give `default`, and otherwise the string is
parsed as an integer, any failure giving `default`. -/
def _to_int (value : Value) (default : Int) : Int :=
  match value with
  | .vNone => default
  | .vInt n => n
  | .vStr s =>
    let t := pyStrip s
    if t = "" ∨ pyUpper t = "N/A" then default
    else
      match pyParseInt t with
      | some n => n
      | none => default

/-- `_clamp_nonneg(x)` from app.py: `_to_int(x, 0)` floored at 0. -/
def _clamp_nonneg (x : Value) : Int :=
  let n := _to_int x 0
  if n < 0 then 0 else n

/-- One `Consumable` row (a stock lot).  Quantity columns are nullable and
loosely typed, hence `Value`; display-only text columns are kept as options. -/
structure Consumable where
  id : Nat
  balance_stock : Value
  unit : Option String
  description : String
  expiration : Option String
  lot_number : Option String
  date_received : Option String
  items_out : Value
  items_on_stock : Value
  previous_month_stock : Value
  units_consumed : Value
  units_expired : Value
  is_returnable : Bool
  barcode : Option String
deriving DecidableEq, Repr

/-- `normalize_row_nonnegatives(row)` from app.py: clamp the three raw
quantity fields non-negative, in place. -/
def normalize_row_nonnegatives (row : Consumable) : Consumable :=
  { row with
    items_out := .vInt (_clamp_nonneg row.items_out)
    items_on_stock := .vInt (_clamp_nonneg row.items_on_stock)
    units_consumed := .vInt (_clamp_nonneg row.units_consumed) }

/-- `recalc_row_level_values(row)` from app.py: normalize the raw fields, then
recompute `balance_stock = items_out + items_on_stock` and
`previous_month_stock = items_out + items_on_stock + units_consumed`, each
passed through `_clamp_nonneg`. -/
def recalc_row_level_values (row : Consumable) : Consumable :=
  let r := normalize_row_nonnegatives row
  let row_balance_stock :=
    _clamp_nonneg (.vInt (_to_int r.items_out 0 + _to_int r.items_on_stock 0))
  let row_previous_month_stock :=
    _clamp_nonneg (.vInt (_to_int r.items_out 0 + _to_int r.items_on_stock 0 +
      _to_int r.units_consumed 0))
  { r with
    balance_stock := .vInt row_balance_stock
    previous_month_stock := .vInt row_previous_month_stock }

/-- `recalc_single_row(row)` from app.py: alias for `recalc_row_level_values`. -/
def recalc_single_row (row : Consumable) : Consumable :=
  recalc_row_level_values row

theorem toInt_vInt (n : Int) (d : Int) : _to_int (.vInt n) d = n := rfl

theorem clamp_nonneg (v : Value) : 0 ≤ _clamp_nonneg v := by
  simp only [_clamp_nonneg]
  split <;> omega

theorem clamp_vInt_of_nonneg (n : Int) (h : 0 ≤ n) :
    _clamp_nonneg (.vInt n) = n := by
  simp only [_clamp_nonneg, _to_int]
  omega

theorem clamp_vInt_clamp (v : Value) :
    _clamp_nonneg (.vInt (_clamp_nonneg v)) = _clamp_nonneg v :=
  clamp_vInt_of_nonneg _ (clamp_nonneg v)

/-- C1: for every StockRow, after any `recalc_row_level_values` call the row
satisfies `items_out ≥ 0`, `items_on_stock ≥ 0`, `units_consumed ≥ 0`,
`balance_stock = items_out + items_on_stock`, and
`previous_month_stock = items_out + items_on_stock + units_consumed`. -/
theorem recalc_row_invariant (row : Consumable) :
    0 ≤ _to_int (recalc_row_level_values row).items_out 0 ∧
    0 ≤ _to_int (recalc_row_level_values row).items_on_stock 0 ∧
    0 ≤ _to_int (recalc_row_level_values row).units_consumed 0 ∧
    _to_int (recalc_row_level_values row).balance_stock 0 =
      _to_int (recalc_row_level_values row).items_out 0 +
      _to_int (recalc_row_level_values row).items_on_stock 0 ∧
    _to_int (recalc_row_level_values row).previous_month_stock 0 =
      _to_int (recalc_row_level_values row).items_out 0 +
      _to_int (recalc_row_level_values row).items_on_stock 0 +
      _to_int (recalc_row_level_values row).units_consumed 0 := by
  simp only [recalc_row_level_values, normalize_row_nonnegatives, toInt_vInt]
  refine ⟨clamp_nonneg _, clamp_nonneg _, clamp_nonneg _, ?_, ?_⟩
  · exact clamp_vInt_of_nonneg _
      (by have := clamp_nonneg row.items_out
          have := clamp_nonneg row.items_on_stock
          omega)
  · exact clamp_vInt_of_nonneg _
      (by have := clamp_nonneg row.items_out
          have := clamp_nonneg row.items_on_stock
          have := clamp_nonneg row.units_consumed
          omega)

/-- C9: `recalc_row_level_values` is idempotent — a second call on the
unchanged row returns exactly the same row. -/
theorem recalc_row_idempotent (row : Consumable) :
    recalc_row_level_values (recalc_row_level_values row) =
      recalc_row_level_values row := by
  have hio := clamp_nonneg row.items_out
  have his := clamp_nonneg row.items_on_stock
  have huc := clamp_nonneg row.units_consumed
  simp only [recalc_row_level_values, normalize_row_nonnegatives, toInt_vInt,
    clamp_vInt_clamp]

/-- C10: after `recalc_row_level_values`, additionally
`previous_month_stock = balance_stock + units_consumed` (hence
`balance_stock ≤ previous_month_stock`), and the final clamps on the two
derived sums never alter them: the stored values are the raw sums of the
already-clamped summands. -/
theorem recalc_row_derived_sums (row : Consumable) :
    _to_int (recalc_row_level_values row).previous_month_stock 0 =
      _to_int (recalc_row_level_values row).balance_stock 0 +
      _to_int (recalc_row_level_values row).units_consumed 0 ∧
    _to_int (recalc_row_level_values row).balance_stock 0 ≤
      _to_int (recalc_row_level_values row).previous_month_stock 0 ∧
    (recalc_row_level_values row).balance_stock =
      .vInt (_to_int (recalc_row_level_values row).items_out 0 +
        _to_int (recalc_row_level_values row).items_on_stock 0) ∧
    (recalc_row_level_values row).previous_month_stock =
      .vInt (_to_int (recalc_row_level_values row).items_out 0 +
        _to_int (recalc_row_level_values row).items_on_stock 0 +
        _to_int (recalc_row_level_values row).units_consumed 0) := by
  have hio := clamp_nonneg row.items_out
  have his := clamp_nonneg row.items_on_stock
  have huc := clamp_nonneg row.units_consumed
  simp only [recalc_row_level_values, normalize_row_nonnegatives, toInt_vInt]
  rw [clamp_vInt_of_nonneg _ (by omega : (0:Int) ≤ _clamp_nonneg row.items_out +
        _clamp_nonneg row.items_on_stock),
      clamp_vInt_of_nonneg _ (by omega : (0:Int) ≤ _clamp_nonneg row.items_out +
        _clamp_nonneg row.items_on_stock + _clamp_nonneg row.units_consumed)]
  refine ⟨?_, ?_, ?_, ?_⟩ <;> first | rfl | omega

/-- C8: `_to_int` is total (a Lean function never raises) and returns the
supplied default on `None`, on the `""` / `"N/A"` sentinels, and on any parse
failure, while returning integers as-is and parsed numeric strings; and
`_clamp_nonneg v = max 0 (_to_int v 0)`, hence always non-negative. -/
theorem to_int_clamp_spec :
    (∀ v : Value, _clamp_nonneg v = max 0 (_to_int v 0)) ∧
    (∀ v : Value, 0 ≤ _clamp_nonneg v) ∧
    (∀ d : Int, _to_int .vNone d = d) ∧
    (∀ n d : Int, _to_int (.vInt n) d = n) ∧
    (∀ (s : String) (d : Int),
      pyStrip s = "" ∨ pyUpper (pyStrip s) = "N/A" →
      _to_int (.vStr s) d = d) ∧
    (∀ (s : String) (d : Int), pyParseInt (pyStrip s) = none →
      _to_int (.vStr s) d = d) ∧
    (∀ (s : String) (d n : Int),
      ¬(pyStrip s = "" ∨ pyUpper (pyStrip s) = "N/A") →
      pyParseInt (pyStrip s) = some n → _to_int (.vStr s) d = n) := by
  refine ⟨?_, clamp_nonneg, fun _ => rfl, fun _ _ => rfl, ?_, ?_, ?_⟩
  · intro v
    simp only [_clamp_nonneg]
    omega
  · intro s d h
    simp [_to_int, h]
  · intro s d h
    simp only [_to_int]
    split
    · rfl
    · rw [h]
  · intro s d n hsent hparse
    simp only [_to_int]
    rw [if_neg hsent, hparse]

/-- Witness for C8: the helpers evaluated on concrete inputs — the unparseable
string `"abc"` returns the default, and the clamp identity holds at `"-5"`. -/
theorem to_int_clamp_spec_witness :
    _to_int (.vStr "abc") 7 = 7 ∧
    _clamp_nonneg (.vStr "-5") = max 0 (_to_int (.vStr "-5") 0) :=
  ⟨to_int_clamp_spec.2.2.2.2.2.1 "abc" 7 (by decide),
   to_int_clamp_spec.1 (.vStr "-5")⟩

/-- One `UsageLog` ledger entry.  `quantity_returned` is the runtime attribute
`return_consumable` assigns on the log object (the column is not declared in
models.py, so only the in-memory object carries it). -/
structure UsageLog where
  id : Nat
  user_name : String
  user_type : String
  section_course : String
  purpose : String
  consumable_id : Nat
  quantity_used : Value
  used_at : Nat
  returned_at : Option Nat
  quantity_returned : Option Int
deriving DecidableEq, Repr

/-- `consume_by_id(consumable_id, quantity)` from app.py, applied to the row
the query returned (the not-found branch returns the clamped quantity
untouched and mutates nothing).  Reduces `items_out` by
`min(clamp(items_out), clamp(quantity))` and returns the updated row with the
unfulfilled remainder. -/
def consume_by_id (c : Consumable) (quantity : Int) : Consumable × Int :=
  let remaining := _clamp_nonneg (.vInt quantity)
  if remaining = 0 then (c, 0)
  else
    let out := _clamp_nonneg c.items_out
    if out ≤ 0 then (c, remaining)
    else
      let take := min out remaining
      ({ c with items_out := .vInt (out - take) }, remaining - take)

/-- The POST body of `use_consumable_row` (app.py): clamp the requested
quantity; when positive, append a `UsageLog`, add the quantity to
`units_consumed`, reduce `items_out` through `consume_by_id`, and recalculate
the row.  Returns the updated row, the created log entry (if any), and the
unfulfilled remainder reported by `consume_by_id`. -/
def use_consumable_row (c : Consumable) (qv : Value)
    (user_name user_type section_course purpose : String)
    (log_id now : Nat) : Consumable × Option UsageLog × Int :=
  let quantity_used := _clamp_nonneg qv
  if 0 < quantity_used then
    let log : UsageLog :=
      { id := log_id
        user_name := user_name
        user_type := user_type
        section_course := section_course
        purpose := purpose
        consumable_id := c.id
        quantity_used := .vInt quantity_used
        used_at := now
        returned_at := none
        quantity_returned := none }
    let c1 := { c with
      units_consumed := .vInt (_to_int c.units_consumed 0 + quantity_used) }
    let res := consume_by_id c1 quantity_used
    (recalc_single_row res.1, some log, res.2)
  else
    (c, none, 0)

/-- The `return_consumable` route (app.py) on a log entry and its target row:
if the row is not returnable the call is a no-op; otherwise, when
`returned_at` is still null, it is stamped, a positive clamped quantity is
credited to the row's `items_out` and recorded as `quantity_returned`, and the
row is recalculated; when `returned_at` is already set nothing changes.
(The optional StudentNote side record does not touch the log or the row and is
not modelled.) -/
def return_consumable (log : UsageLog) (c : Consumable) (qv : Value)
    (now : Nat) : UsageLog × Consumable :=
  if ¬ c.is_returnable then (log, c)
  else
    let quantity_returned := _clamp_nonneg qv
    match log.returned_at with
    | some _ => (log, c)
    | none =>
      let log1 := { log with returned_at := some now }
      if 0 < quantity_returned then
        let c1 := { c with
          items_out := .vInt (_to_int c.items_out 0 + quantity_returned) }
        let log2 := { log1 with quantity_returned := some quantity_returned }
        (log2, recalc_single_row c1)
      else
        (log1, recalc_single_row c)

theorem recalc_items_out (r : Consumable) :
    (recalc_row_level_values r).items_out = .vInt (_clamp_nonneg r.items_out) :=
  rfl

theorem recalc_units_consumed (r : Consumable) :
    (recalc_row_level_values r).units_consumed =
      .vInt (_clamp_nonneg r.units_consumed) :=
  rfl

theorem consume_by_id_items_out (c : Consumable) (q n : Int)
    (hio : c.items_out = .vInt n) (hn : 0 ≤ n) (hq : 0 ≤ q) :
    (consume_by_id c q).1.items_out = .vInt (n - min q n) := by
  simp only [consume_by_id, hio, clamp_vInt_of_nonneg _ hq,
    clamp_vInt_of_nonneg _ hn]
  split
  · simp [hio]
    omega
  · split
    · simp [hio]
      omega
    · simp
      omega

theorem consume_by_id_units_consumed (c : Consumable) (q : Int) :
    (consume_by_id c q).1.units_consumed = c.units_consumed := by
  simp only [consume_by_id]
  split
  · rfl
  · split
    · rfl
    · rfl

theorem consume_by_id_snd (c : Consumable) (q n : Int)
    (hio : c.items_out = .vInt n) (hn : 0 ≤ n) (hq : 0 ≤ q) :
    (consume_by_id c q).2 = q - min q n := by
  simp only [consume_by_id, hio, clamp_vInt_of_nonneg _ hq,
    clamp_vInt_of_nonneg _ hn]
  split
  · simp
    omega
  · split
    · simp
      omega
    · simp
      omega

/-- C2: for a well-formed row (integer `items_out = n ≥ 0`,
`units_consumed = m ≥ 0`), a Policy B consumption through
`use_consumable_row` / `consume_by_id` with clamped request `q` leaves
`items_out = n - min q n` (it drops by exactly `min q n`), raises
`units_consumed` to `m + q` whether or not the request was fulfilled, and the
`consume_by_id` remainder is `q - min q n`. -/
theorem use_consumable_row_conservation (c : Consumable) (qv : Value)
    (user_name user_type section_course purpose : String) (log_id now : Nat)
    (n m : Int) (hio : c.items_out = .vInt n) (hn : 0 ≤ n)
    (huc : c.units_consumed = .vInt m) (hm : 0 ≤ m) :
    _to_int (use_consumable_row c qv user_name user_type section_course
        purpose log_id now).1.items_out 0 = n - min (_clamp_nonneg qv) n ∧
    _to_int (use_consumable_row c qv user_name user_type section_course
        purpose log_id now).1.units_consumed 0 = m + _clamp_nonneg qv ∧
    (use_consumable_row c qv user_name user_type section_course
        purpose log_id now).2.2 = _clamp_nonneg qv - min (_clamp_nonneg qv) n := by
  have hq0 := clamp_nonneg qv
  simp only [use_consumable_row]
  split
  case isTrue hpos =>
    have h1 : ({ c with units_consumed := Value.vInt (_to_int c.units_consumed 0 + _clamp_nonneg qv) } : Consumable).items_out = .vInt n := hio
    refine ⟨?_, ?_, ?_⟩
    · simp only [recalc_single_row, recalc_items_out,
        consume_by_id_items_out _ _ n h1 hn hq0,
        clamp_vInt_of_nonneg _
          (show (0:Int) ≤ n - min (_clamp_nonneg qv) n by omega),
        toInt_vInt]
    · simp only [recalc_single_row, recalc_units_consumed,
        consume_by_id_units_consumed, huc, toInt_vInt,
        clamp_vInt_of_nonneg _
          (show (0:Int) ≤ m + _clamp_nonneg qv by omega)]
    · exact consume_by_id_snd _ _ n h1 hn hq0
  case isFalse hpos =>
    refine ⟨?_, ?_, ?_⟩
    · show _to_int c.items_out 0 = n - min (_clamp_nonneg qv) n
      rw [hio, toInt_vInt]
      omega
    · show _to_int c.units_consumed 0 = m + _clamp_nonneg qv
      rw [huc, toInt_vInt]
      omega
    · show (0 : Int) = _clamp_nonneg qv - min (_clamp_nonneg qv) n
      omega

/-- Witness for C2: a concrete row with `items_out = 5`, `units_consumed = 1`
consuming 3 ends with `items_out = 2`, `units_consumed = 4`, remainder 0. -/
theorem use_consumable_row_conservation_witness :
    let c : Consumable :=
      { id := 1, balance_stock := .vInt 5, unit := none, description := "X",
        expiration := none, lot_number := none, date_received := none,
        items_out := .vInt 5, items_on_stock := .vInt 0,
        previous_month_stock := .vInt 6, units_consumed := .vInt 1,
        units_expired := .vNone, is_returnable := false, barcode := none }
    _to_int (use_consumable_row c (.vInt 3) "u" "t" "s" "p" 9 100).1.items_out
        0 = 5 - min (_clamp_nonneg (.vInt 3)) 5 ∧
    _to_int (use_consumable_row c (.vInt 3) "u" "t" "s" "p" 9
        100).1.units_consumed 0 = 1 + _clamp_nonneg (.vInt 3) ∧
    (use_consumable_row c (.vInt 3) "u" "t" "s" "p" 9 100).2.2 =
      _clamp_nonneg (.vInt 3) - min (_clamp_nonneg (.vInt 3)) 5 :=
  use_consumable_row_conservation _ (.vInt 3) "u" "t" "s" "p" 9 100 5 1
    rfl (by decide) rfl (by decide)

theorem return_consumable_not_returnable (log : UsageLog) (c : Consumable)
    (qv : Value) (now : Nat) (h : c.is_returnable = false) :
    return_consumable log c qv now = (log, c) := by
  simp [return_consumable, h]

theorem return_consumable_closed (log : UsageLog) (c : Consumable)
    (qv : Value) (now t : Nat) (h : log.returned_at = some t) :
    return_consumable log c qv now = (log, c) := by
  by_cases hret : c.is_returnable <;> simp [return_consumable, hret, h]

theorem return_consumable_open_pos (log : UsageLog) (c : Consumable)
    (qv : Value) (now : Nat) (hret : c.is_returnable = true)
    (hopen : log.returned_at = none) (hq : 0 < _clamp_nonneg qv) :
    return_consumable log c qv now =
      ({ log with
          returned_at := some now
          quantity_returned := some (_clamp_nonneg qv) },
       recalc_single_row { c with
          items_out := .vInt (_to_int c.items_out 0 + _clamp_nonneg qv) }) := by
  simp [return_consumable, hret, hopen, hq]

/-- C3: on a returnable row with integer `items_out = n ≥ 0` and an open log
entry, returning a clamped quantity `q` with `0 < q ≤ quantity_used` credits
`items_out` to `n + q` and sets `returned_at` and `quantity_returned`; a
second return on the resulting closed entry changes nothing, and a return
against a non-returnable row changes nothing. -/
theorem return_consumable_once (log : UsageLog) (c : Consumable) (qv : Value)
    (now : Nat) (n : Int) (hret : c.is_returnable = true)
    (hopen : log.returned_at = none) (hio : c.items_out = .vInt n)
    (hn : 0 ≤ n) (hq : 0 < _clamp_nonneg qv)
    (hbound : _clamp_nonneg qv ≤ _to_int log.quantity_used 0) :
    _to_int (return_consumable log c qv now).2.items_out 0 =
      n + _clamp_nonneg qv ∧
    (return_consumable log c qv now).1.returned_at = some now ∧
    (return_consumable log c qv now).1.quantity_returned =
      some (_clamp_nonneg qv) ∧
    (∀ (qv₂ : Value) (now₂ : Nat),
      return_consumable (return_consumable log c qv now).1
        (return_consumable log c qv now).2 qv₂ now₂ =
      ((return_consumable log c qv now).1,
       (return_consumable log c qv now).2)) ∧
    (∀ (log₂ : UsageLog) (c₂ : Consumable) (qv₂ : Value) (now₂ : Nat),
      c₂.is_returnable = false →
      return_consumable log₂ c₂ qv₂ now₂ = (log₂, c₂)) := by
  have hq0 := clamp_nonneg qv
  have hmain := return_consumable_open_pos log c qv now hret hopen hq
  refine ⟨?_, ?_, ?_, ?_, ?_⟩
  · rw [hmain]
    simp only [recalc_single_row, recalc_items_out, hio, toInt_vInt,
      clamp_vInt_of_nonneg _ (by omega : (0:Int) ≤ n + _clamp_nonneg qv)]
  · rw [hmain]
  · rw [hmain]
  · intro qv₂ now₂
    rw [hmain]
    exact return_consumable_closed _ _ _ _ now rfl
  · intro log₂ c₂ qv₂ now₂ h₂
    exact return_consumable_not_returnable _ _ _ _ h₂

/-- Witness for C3: a concrete open log entry (5 used) against a returnable
row with `items_out = 2`; returning 3 yields `items_out = 5`, stamps
`returned_at = 100` and `quantity_returned = 3`. -/
theorem return_consumable_once_witness :
    let log : UsageLog :=
      { id := 4, user_name := "u", user_type := "t", section_course := "s",
        purpose := "p", consumable_id := 1, quantity_used := .vInt 5,
        used_at := 50, returned_at := none, quantity_returned := none }
    let c : Consumable :=
      { id := 1, balance_stock := .vInt 2, unit := none, description := "X",
        expiration := none, lot_number := none, date_received := none,
        items_out := .vInt 2, items_on_stock := .vInt 0,
        previous_month_stock := .vInt 7, units_consumed := .vInt 5,
        units_expired := .vNone, is_returnable := true, barcode := none }
    _to_int (return_consumable log c (.vInt 3) 100).2.items_out 0 =
      2 + _clamp_nonneg (.vInt 3) ∧
    (return_consumable log c (.vInt 3) 100).1.returned_at = some 100 ∧
    (return_consumable log c (.vInt 3) 100).1.quantity_returned =
      some (_clamp_nonneg (.vInt 3)) :=
  let h := return_consumable_once _ _ (.vInt 3) 100 2 rfl rfl rfl
    (by decide) (by decide) (by decide)
  ⟨h.1, h.2.1, h.2.2.1⟩

/-- C7: the return operation enforces no upper bound against the original
`quantity_used`: for any clamped quantity `q > 0` — nothing relates `q` to
`quantity_used` — a returnable, still-open entry credits the row's
`items_out` by the full `q`. -/
theorem return_consumable_no_upper_bound (log : UsageLog) (c : Consumable)
    (qv : Value) (now : Nat) (n : Int) (hret : c.is_returnable = true)
    (hopen : log.returned_at = none) (hio : c.items_out = .vInt n)
    (hn : 0 ≤ n) (hq : 0 < _clamp_nonneg qv) :
    _to_int (return_consumable log c qv now).2.items_out 0 =
      n + _clamp_nonneg qv := by
  have hq0 := clamp_nonneg qv
  rw [return_consumable_open_pos log c qv now hret hopen hq]
  simp only [recalc_single_row, recalc_items_out, hio, toInt_vInt,
    clamp_vInt_of_nonneg _ (by omega : (0:Int) ≤ n + _clamp_nonneg qv)]

/-- Witness for C7: returning 10 against an entry that only used 2 still
credits all 10 — `items_out` goes from 1 to 11. -/
theorem return_consumable_no_upper_bound_witness :
    let log : UsageLog :=
      { id := 4, user_name := "u", user_type := "t", section_course := "s",
        purpose := "p", consumable_id := 1, quantity_used := .vInt 2,
        used_at := 50, returned_at := none, quantity_returned := none }
    let c : Consumable :=
      { id := 1, balance_stock := .vInt 1, unit := none, description := "X",
        expiration := none, lot_number := none, date_received := none,
        items_out := .vInt 1, items_on_stock := .vInt 0,
        previous_month_stock := .vInt 3, units_consumed := .vInt 2,
        units_expired := .vNone, is_returnable := true, barcode := none }
    _to_int log.quantity_used 0 < _clamp_nonneg (.vInt 10) ∧
    _to_int (return_consumable log c (.vInt 10) 100).2.items_out 0 =
      1 + _clamp_nonneg (.vInt 10) :=
  ⟨by decide,
   return_consumable_no_upper_bound _ _ (.vInt 10) 100 1 rfl rfl rfl
     (by decide) (by decide)⟩

/-- `_expiration_sort_key(exp)` from app.py: the stripped value; ISO-looking
dates (exactly 10 characters with two dashes) get first component 0, anything
else 1, and the stripped string itself is kept as the tie-break. -/
def _expiration_sort_key (exp : Option String) : Nat × String :=
  let s := pyStrip (exp.getD "")
  if s.length = 10 ∧ s.data.count '-' = 2 then (0, s) else (1, s)

/-- The ISO-date heuristic of `_expiration_sort_key`, named. -/
def isIsoLike (s : String) : Prop :=
  s.length = 10 ∧ s.data.count '-' = 2

instance (s : String) : Decidable (isIsoLike s) := by
  unfold isIsoLike
  infer_instance

/-- Strict order on sort keys: Python tuple comparison, lexicographic. -/
def keyLt (a b : Nat × String) : Prop :=
  a.1 < b.1 ∨ (a.1 = b.1 ∧ a.2 < b.2)

/-- Non-strict key comparison used to sort rows ascending (Python `sort` with
`_expiration_sort_key` as key). -/
def expLe (a b : Consumable) : Prop :=
  ¬ keyLt (_expiration_sort_key b.expiration) (_expiration_sort_key a.expiration)

instance (a b : Nat × String) : Decidable (keyLt a b) := by
  unfold keyLt
  infer_instance

instance (a b : Consumable) : Decidable (expLe a b) := by
  unfold expLe
  infer_instance

/-- Stable insertion into a sorted list: `x` goes before the first element it
compares `le` to (insertion-sort model of Python's stable ascending sort). -/
def insertLe (le : Consumable → Consumable → Prop) [DecidableRel le]
    (x : Consumable) : List Consumable → List Consumable
  | [] => [x]
  | y :: ys => if le x y then x :: y :: ys else y :: insertLe le x ys

/-- Stable ascending sort (model of `rows.sort(key=_expiration_sort_key)`). -/
def sortRows (le : Consumable → Consumable → Prop) [DecidableRel le] :
    List Consumable → List Consumable
  | [] => []
  | x :: xs => insertLe le x (sortRows le xs)

/-- The loop of `consume_from_group`: walk the sorted rows; skip rows with no
(clamped) `items_out`; otherwise take `min(items_out, remaining)` from
`items_out` and stop once nothing remains.  Returns the updated rows together
with the final remainder. -/
def consume_group_loop : List Consumable → Int → List Consumable × Int
  | [], remaining => ([], remaining)
  | r :: rest, remaining =>
    let out := _clamp_nonneg r.items_out
    if out ≤ 0 then
      let res := consume_group_loop rest remaining
      (r :: res.1, res.2)
    else
      let take := min out remaining
      let r2 := { r with items_out := .vInt (out - take) }
      let remaining2 := remaining - take
      if remaining2 = 0 then (r2 :: rest, 0)
      else
        let res := consume_group_loop rest remaining2
        (r2 :: res.1, res.2)

/-- `consume_from_group(description, quantity)` from app.py (the group FIFO
engine, retained in the source as a commented-out generation), applied to the
rows that the description query returned: clamp the quantity, sort the rows by
`_expiration_sort_key`, and drain `items_out` row by row.  Returns the updated
rows and the unfulfilled remainder. -/
def consume_from_group (rows : List Consumable) (quantity : Int) :
    List Consumable × Int :=
  let remaining := _clamp_nonneg (.vInt quantity)
  if remaining = 0 then (rows, 0)
  else consume_group_loop (sortRows expLe rows) remaining

/-- Counterexample for C4: a single-row group with `items_on_stock = 5` (and
`items_out = 0`); Policy A consumption of 3 leaves `items_on_stock` at 5 and
returns remainder 3 — not `items_on_stock = 2` with remainder 0 as claimed,
because the engine drains `items_out`, not `items_on_stock`. -/
theorem consume_from_group_items_on_stock_counterexample :
    ((consume_from_group
        [{ id := 1, balance_stock := .vInt 5, unit := none, description := "X",
           expiration := some "2025-01-01", lot_number := none,
           date_received := none, items_out := .vInt 0,
           items_on_stock := .vInt 5, previous_month_stock := .vInt 5,
           units_consumed := .vInt 0, units_expired := .vNone,
           is_returnable := false, barcode := none }] 3).2 = 3) ∧
    ((consume_from_group
        [{ id := 1, balance_stock := .vInt 5, unit := none, description := "X",
           expiration := some "2025-01-01", lot_number := none,
           date_received := none, items_out := .vInt 0,
           items_on_stock := .vInt 5, previous_month_stock := .vInt 5,
           units_consumed := .vInt 0, units_expired := .vNone,
           is_returnable := false, barcode := none }] 3).1.map
      (fun r => _to_int r.items_on_stock 0)) = [5] := by
  decide

/-- C4 (amended): Policy A (`consume_from_group`) takes
`min(remaining, items_out)` from each row's `items_out` — not
`items_on_stock`, which it never touches, and it does not touch
`units_consumed` either.  For a single-row group with integer
`items_out = n > 0` and request `q > 0`, the row ends with
`items_out = n - min q n`, all other fields unchanged, and the remainder is
`q - min q n`; in particular `items_out = 5`, `q = 3` ends with
`items_out = 2` and remainder 0. -/
theorem consume_from_group_single_row (r : Consumable) (n q : Int)
    (hio : r.items_out = .vInt n) (hn : 0 < n) (hq : 0 < q) :
    (consume_from_group [r] q).2 = q - min q n ∧
    (consume_from_group [r] q).1 =
      [{ r with items_out := .vInt (n - min q n) }] := by
  have hq2 : _clamp_nonneg (.vInt q) = q := clamp_vInt_of_nonneg _ (by omega)
  have hsort : sortRows expLe [r] = [r] := rfl
  simp only [consume_from_group, hq2, hsort, if_neg (by omega : ¬ q = 0)]
  simp only [consume_group_loop, hio, clamp_vInt_of_nonneg _ (by omega : (0:Int) ≤ n),
    if_neg (by omega : ¬ n ≤ 0)]
  split
  case isTrue h0 =>
    refine ⟨by omega, ?_⟩
    have : n - min n q = n - min q n := by omega
    rw [this]
  case isFalse h0 =>
    simp only [consume_group_loop]
    refine ⟨by omega, ?_⟩
    have : n - min n q = n - min q n := by omega
    rw [this]

/-- Witness for C4 (amended): the single-row scenario with `items_out = 5`
consuming 3 ends with remainder 0 and the row at `items_out = 2`. -/
theorem consume_from_group_single_row_witness :
    let r : Consumable :=
      { id := 1, balance_stock := .vInt 5, unit := none, description := "X",
        expiration := some "2025-01-01", lot_number := none,
        date_received := none, items_out := .vInt 5,
        items_on_stock := .vInt 0, previous_month_stock := .vInt 5,
        units_consumed := .vInt 0, units_expired := .vNone,
        is_returnable := false, barcode := none }
    (consume_from_group [r] 3).2 = 3 - min 3 5 ∧
    (consume_from_group [r] 3).1 =
      [{ r with items_out := .vInt (5 - min 3 5) }] :=
  consume_from_group_single_row _ 5 3 rfl (by decide) (by decide)

/-- Counterexample for C5: the sort keys of the two unknown expiration values
`"N/A"` and `""` are not equal — the key keeps the stripped string as a
tie-break, so unknown values do not all compare equal. -/
theorem expiration_sort_key_unknowns_counterexample :
    _expiration_sort_key (some "N/A") ≠ _expiration_sort_key (some "") := by
  decide

/-- C5 (amended): every ISO-looking expiration (exactly 10 characters, two
dashes, after stripping) sorts strictly before every other value; ISO-looking
values are ordered ascending by their stripped string; non-ISO ("unknown")
values sort last but are ordered among themselves by their stripped string —
two unknown keys are equal only when the stripped strings are equal, so
`"N/A"` and `""` differ. -/
theorem expiration_sort_key_order :
    (∀ a b : Option String, isIsoLike (pyStrip (a.getD "")) →
      ¬ isIsoLike (pyStrip (b.getD "")) →
      keyLt (_expiration_sort_key a) (_expiration_sort_key b)) ∧
    (∀ a b : Option String, isIsoLike (pyStrip (a.getD "")) →
      isIsoLike (pyStrip (b.getD "")) →
      (keyLt (_expiration_sort_key a) (_expiration_sort_key b) ↔
        pyStrip (a.getD "") < pyStrip (b.getD ""))) ∧
    (∀ a b : Option String, ¬ isIsoLike (pyStrip (a.getD "")) →
      ¬ isIsoLike (pyStrip (b.getD "")) →
      (_expiration_sort_key a = _expiration_sort_key b ↔
        pyStrip (a.getD "") = pyStrip (b.getD ""))) ∧
    _expiration_sort_key (some "N/A") ≠ _expiration_sort_key (some "") := by
  refine ⟨?_, ?_, ?_, by decide⟩
  · intro a b ha hb
    simp only [_expiration_sort_key, isIsoLike] at ha hb ⊢
    rw [if_pos ha, if_neg hb]
    left
    exact Nat.zero_lt_one
  · intro a b ha hb
    simp only [_expiration_sort_key, isIsoLike] at ha hb ⊢
    rw [if_pos ha, if_pos hb]
    simp [keyLt]
  · intro a b ha hb
    simp only [_expiration_sort_key, isIsoLike] at ha hb ⊢
    rw [if_neg ha, if_neg hb]
    simp

/-- Witness for C5 (amended): `"2025-01-01"` is ISO-looking, `"N/A"` is not,
and the former's key sorts strictly before the latter's. -/
theorem expiration_sort_key_order_witness :
    keyLt (_expiration_sort_key (some "2025-01-01"))
      (_expiration_sort_key (some "N/A")) :=
  expiration_sort_key_order.1 (some "2025-01-01") (some "N/A")
    (by decide) (by decide)

/-- One `EquipmentMaintenance` record.  Dates are modelled as integer day
ordinals (the code only ever compares them); `cost` is a float in the source,
modelled as an exact rational and only ever stored, never computed with. -/
structure EquipmentMaintenance where
  id : Nat
  equipment_id : Nat
  maintenance_type : String
  scheduled_date : Int
  completed_date : Option Int
  performed_by : Option String
  notes : Option String
  cost : Rat
  status : String
  created_by : Nat
deriving DecidableEq, Repr

/-- The status refresh the `maintenance` list route applies to each record it
renders: a `scheduled` record whose `scheduled_date` is before today becomes
`overdue`. -/
def maintenance_read_update (r : EquipmentMaintenance) (today : Int) :
    EquipmentMaintenance :=
  if r.status = "scheduled" ∧ r.scheduled_date < today then
    { r with status := "overdue" }
  else r

/-- The POST body of `edit_maintenance` (app.py): overwrite the editable
fields; a supplied `completed_date` forces status `completed`, a cleared one
re-derives `overdue`/`scheduled` from the (new) `scheduled_date` and today. -/
def edit_maintenance (r : EquipmentMaintenance) (equipment_id : Nat)
    (maintenance_type : String) (scheduled_date : Int)
    (completed_date : Option Int) (performed_by notes : Option String)
    (cost : Rat) (today : Int) : EquipmentMaintenance :=
  let r1 := { r with
    equipment_id := equipment_id
    maintenance_type := maintenance_type
    scheduled_date := scheduled_date }
  let r2 :=
    match completed_date with
    | some d => { r1 with completed_date := some d, status := "completed" }
    | none =>
      { r1 with
        completed_date := none
        status := if scheduled_date < today then "overdue" else "scheduled" }
  { r2 with performed_by := performed_by, notes := notes, cost := cost }

/-- The pure status function the spec describes (§4.5): `completed` when a
completion date exists, otherwise `overdue` iff the scheduled date is past.
Stated from the spec's words, to compare the stored status against. -/
def maintenance_status_spec (scheduled_date : Int)
    (completed_date : Option Int) (today : Int) : String :=
  match completed_date with
  | some _ => "completed"
  | none => if scheduled_date < today then "overdue" else "scheduled"

/-- C6: reading the list turns a `scheduled`, uncompleted, past-due record
`overdue`; an edit supplying a completed date sets `completed`; an edit
clearing it re-derives `overdue`/`scheduled` from the new scheduled date; so
any edit leaves the stored status equal to the pure function of
`(scheduled_date, completed_date, today)`, and a read refreshes a status that
was correct at some earlier day to the one correct today. -/
theorem maintenance_status_agrees :
    (∀ (r : EquipmentMaintenance) (today : Int),
      r.status = "scheduled" → r.completed_date = none →
      r.scheduled_date < today →
      (maintenance_read_update r today).status = "overdue") ∧
    (∀ (r : EquipmentMaintenance) (eid : Nat) (mt : String)
      (sched d : Int) (pb nt : Option String) (cost : Rat) (today : Int),
      (edit_maintenance r eid mt sched (some d) pb nt cost today).status =
        "completed") ∧
    (∀ (r : EquipmentMaintenance) (eid : Nat) (mt : String)
      (sched : Int) (pb nt : Option String) (cost : Rat) (today : Int),
      (edit_maintenance r eid mt sched none pb nt cost today).status =
        (if sched < today then "overdue" else "scheduled")) ∧
    (∀ (r : EquipmentMaintenance) (eid : Nat) (mt : String)
      (sched : Int) (comp : Option Int) (pb nt : Option String) (cost : Rat)
      (today : Int),
      (edit_maintenance r eid mt sched comp pb nt cost today).status =
        maintenance_status_spec sched comp today) ∧
    (∀ (r : EquipmentMaintenance) (day0 today : Int), day0 ≤ today →
      r.status = maintenance_status_spec r.scheduled_date r.completed_date day0 →
      (maintenance_read_update r today).status =
        maintenance_status_spec r.scheduled_date r.completed_date today) := by
  refine ⟨?_, ?_, ?_, ?_, ?_⟩
  · intro r today hs hc hd
    simp [maintenance_read_update, hs, hd]
  · intro r eid mt sched d pb nt cost today
    rfl
  · intro r eid mt sched pb nt cost today
    rfl
  · intro r eid mt sched comp pb nt cost today
    cases comp <;> rfl
  · intro r day0 today hle hcorrect
    cases hcomp : r.completed_date with
    | some d =>
      rw [hcomp] at hcorrect
      simp only [maintenance_status_spec] at hcorrect ⊢
      rw [maintenance_read_update, if_neg]
      · exact hcorrect
      · rw [hcorrect]
        simp
    | none =>
      rw [hcomp] at hcorrect
      simp only [maintenance_status_spec] at hcorrect ⊢
      by_cases h0 : r.scheduled_date < day0
      · rw [if_pos h0] at hcorrect
        rw [if_pos (by omega), maintenance_read_update, if_neg]
        · exact hcorrect
        · rw [hcorrect]
          simp
      · rw [if_neg h0] at hcorrect
        by_cases h1 : r.scheduled_date < today
        · rw [if_pos h1, maintenance_read_update, if_pos ⟨hcorrect, h1⟩]
        · rw [if_neg h1, maintenance_read_update, if_neg]
          · exact hcorrect
          · intro hcon
            exact h1 hcon.2

/-- Witness for C6: a concrete record scheduled on day 9 with no completion,
read on day 10, shows status `overdue`; an edit supplying completion day 10
shows `completed`. -/
theorem maintenance_status_agrees_witness :
    let r : EquipmentMaintenance :=
      { id := 1, equipment_id := 2, maintenance_type := "repair",
        scheduled_date := 9, completed_date := none, performed_by := none,
        notes := none, cost := 0, status := "scheduled", created_by := 1 }
    (maintenance_read_update r 10).status = "overdue" ∧
    (edit_maintenance r 2 "repair" 9 (some 10) none none 0 10).status =
      "completed" :=
  ⟨maintenance_status_agrees.1 _ 10 rfl rfl (by decide),
   maintenance_status_agrees.2.1 _ 2 "repair" 9 10 none none 0 10⟩

end CmtInventory
